import Mathlib

/-!
# Avalauncher fleet manager — shallow embedding

This file embeds the fleet-manager operations of the avalauncher control
plane (`internal/manager`) as pure Lean functions over an explicit database
state, and proves the specification's claims about them.

Modelling conventions:
* The relational store is a `DB` value holding the `nodes`, `l1s`,
  `l1_validators` and `events` tables as lists of rows.  Row identifiers
  assigned by the store are passed in as explicit `newID` arguments;
  primary keys are assumed unique where a claim needs it (stated as a
  hypothesis).
* The Docker runtime client is external: each operation that calls it takes
  the outcome of those calls as explicit arguments (e.g. `RuntimeOutcome`
  for provisioning, the container-remove error for deletion), and the
  host-registry lookup `clientFor` is modelled by `Manager.hasClient`.
* `logEvent` swallows a failing event insert; the flag `insertOk` says
  whether the insert into the `events` table succeeds.
* Go `int64`/`int` weights are `Int` (the code compares them with `<= 0`);
  ports and ids are `Nat`.
-/

namespace Avalauncher

/-- A row of the `nodes` table (Go struct `Node` in `internal/manager`). -/
structure Node where
  id : Nat
  name : String
  hostID : Nat
  image : String
  nodeID : String
  containerID : String
  httpPort : Nat
  stakingPort : Nat
  status : String
deriving Repr, DecidableEq

/-- A row of the `l1s` table (Go struct `L1`). -/
structure L1 where
  id : Nat
  name : String
  subnetID : String
  blockchainID : String
  vm : String
  status : String
deriving Repr, DecidableEq

/-- A row of the `l1_validators` table (Go struct `L1Validator`; the
`NodeName` presentation field filled from a join is not part of the row). -/
structure L1Validator where
  id : Nat
  l1ID : Nat
  nodeID : Nat
  weight : Int
  txID : String
deriving Repr, DecidableEq

/-- A row of the `events` table.  The only structured detail payload the
manager ever writes is `{"remove_volumes": bool}` from `DeleteNode`, so the
`details` column is modelled as `Option Bool` (`none` for the empty `{}`
payload). -/
structure Event where
  eventType : String
  target : String
  message : String
  details : Option Bool
deriving Repr, DecidableEq

/-- The persistent store: the four tables the embedded operations touch. -/
structure DB where
  nodes : List Node
  l1s : List L1
  validators : List L1Validator
  events : List Event
deriving Repr, DecidableEq

/-- The non-event part of the store, used to state that event-insert
failures leave all other persisted state unchanged. -/
def DB.core (db : DB) : List Node × List L1 × List L1Validator :=
  (db.nodes, db.l1s, db.validators)

/-- Model of `Manager.logEvent`: inserts an audit event row.  A failing insert
(`insertOk = false`) is only written to the slog and swallowed — the store
is left untouched and no error is returned to the caller. -/
def logEvent (insertOk : Bool) (db : DB) (eventType target message : String)
    (details : Option Bool) : DB :=
  if insertOk then
    { db with events := db.events ++ [⟨eventType, target, message, details⟩] }
  else db

/-- The in-memory manager configuration relevant to the embedded
operations: the default image, the local host's row id, and the set of
remote host ids that currently have a registered Docker client
(`Manager.clientFor` returns the local client for `localHostID` and
otherwise consults the client map). -/
structure Manager where
  avagoImage : String
  localHostID : Nat
  remoteClients : List Nat
deriving Repr, DecidableEq

/-- Model of `Manager.clientFor(hostID) != nil`: the local host always has a client;
a remote host has one iff it is registered in the client map. -/
def Manager.hasClient (m : Manager) (hostID : Nat) : Bool :=
  hostID == m.localHostID || m.remoteClients.contains hostID

/-- Go request struct `CreateL1Request`. -/
structure CreateL1Request where
  name : String
  vm : String
  subnetID : String
  blockchainID : String
deriving Repr, DecidableEq

/-- Model of `Manager.CreateL1`: validates the name, defaults the VM, rejects a
duplicate name, inserts the row with status `configured` when a subnet id
is supplied and `pending` otherwise, and logs an event.  Returns the
result together with the updated store. -/
def CreateL1 (insertOk : Bool) (db : DB) (newID : Nat) (req : CreateL1Request) :
    Except String L1 × DB :=
  if req.name = ("") then (.error ("name is required"), db)
  else
    let vm := if req.vm = ("") then ("subnet-evm") else req.vm
    if db.l1s.any (fun l => l.name == req.name) then
      (.error (("L1 \"") ++ req.name ++ ("\" already exists")), db)
    else
      let status := if req.subnetID = ("") then ("pending") else ("configured")
      let l1 : L1 := { id := newID, name := req.name, subnetID := req.subnetID,
                       blockchainID := req.blockchainID, vm := vm, status := status }
      let db' : DB := { db with l1s := db.l1s ++ [l1] }
      (.ok l1, logEvent insertOk db' ("l1.created") l1.name
        (("L1 created (vm=") ++ l1.vm ++ (", status=") ++ l1.status ++ (")")) none)

/-- Go request struct `AddValidatorRequest` (`Weight` is `int64`). -/
structure AddValidatorRequest where
  nodeID : Nat
  weight : Int
deriving Repr, DecidableEq

/-- Result of `Manager.AddValidator`: the returned value or error, the
updated store, and whether a background `reconfigureNode` task was
spawned for the node. -/
structure AddValidatorResult where
  res : Except String L1Validator
  db : DB
  reconfigureTriggered : Bool
deriving Repr

/-- Model of `Manager.AddValidator`: defaults a non-positive weight to 100, requires
the L1 and the node to exist and the `(l1, node)` pair to be unassigned,
inserts the assignment, logs an event, and spawns `reconfigureNode` iff
the L1's subnet id is non-empty. -/
def AddValidator (insertOk : Bool) (db : DB) (newID : Nat) (l1ID : Nat)
    (req : AddValidatorRequest) : AddValidatorResult :=
  let weight := if req.weight ≤ 0 then 100 else req.weight
  match db.l1s.find? (fun l => l.id == l1ID) with
  | none => ⟨.error ("L1 not found"), db, false⟩
  | some l1 =>
    match db.nodes.find? (fun n => n.id == req.nodeID) with
    | none => ⟨.error ("node not found"), db, false⟩
    | some node =>
      if db.validators.any (fun v => v.l1ID == l1ID && v.nodeID == req.nodeID) then
        ⟨.error (("node \"") ++ node.name ++ ("\" is already a validator for L1 \"")
                  ++ l1.name ++ ("\"")), db, false⟩
      else
        let v : L1Validator := { id := newID, l1ID := l1ID, nodeID := req.nodeID,
                                 weight := weight, txID := ("") }
        let db' : DB := { db with validators := db.validators ++ [v] }
        let db'' := logEvent insertOk db' ("l1.validator.added") l1.name
          (("Validator added: node ") ++ node.name ++ (" (weight ") ++ toString weight ++ (")")) none
        ⟨.ok v, db'', l1.subnetID != ("")⟩

/-- Result of `Manager.RemoveValidator`: the error (if any), the updated
store, and whether a background `reconfigureNode` task was spawned. -/
structure RemoveValidatorResult where
  res : Except String Unit
  db : DB
  reconfigureTriggered : Bool
deriving Repr

/-- Model of `Manager.RemoveValidator`: requires the L1 to exist, deletes the
`(l1, node)` assignment rows (error when none existed), logs an event, and
spawns `reconfigureNode` iff the L1's subnet id is non-empty.  The L1 row
itself is never modified. -/
def RemoveValidator (insertOk : Bool) (db : DB) (l1ID nodeID : Nat) :
    RemoveValidatorResult :=
  match db.l1s.find? (fun l => l.id == l1ID) with
  | none => ⟨.error ("L1 not found"), db, false⟩
  | some l1 =>
    let remaining := db.validators.filter (fun v => !(v.l1ID == l1ID && v.nodeID == nodeID))
    if remaining.length == db.validators.length then
      ⟨.error ("validator assignment not found"), db, false⟩
    else
      let db' : DB := { db with validators := remaining }
      ⟨.ok (), logEvent insertOk db' ("l1.validator.removed") l1.name ("Validator removed") none,
        l1.subnetID != ("")⟩

/-- Go request struct `CreateNodeRequest`. -/
structure CreateNodeRequest where
  name : String
  image : String
  stakingPort : Nat
  exposeHTTP : Bool
  hostID : Nat
deriving Repr, DecidableEq

/-- Model of `Manager.CreateNode` (the synchronous part): validates the name,
defaults the staking port to 9651 and the image to the manager's default,
rejects a duplicate node name, resolves the host (0 means local) and
rejects when it has no connected client, rejects a staking-port conflict
with a non-terminal node on that host, then inserts the row in `creating`
status and logs a `node.creating` event.  The asynchronous provisioning
task it spawns is `provisionNode` below. -/
def CreateNode (m : Manager) (insertOk : Bool) (db : DB) (newID : Nat)
    (req : CreateNodeRequest) : Except String Node × DB :=
  if req.name = ("") then (.error ("name is required"), db)
  else
    let stakingPort := if req.stakingPort = 0 then 9651 else req.stakingPort
    let image := if req.image = ("") then m.avagoImage else req.image
    if db.nodes.any (fun n => n.name == req.name) then
      (.error (("node \"") ++ req.name ++ ("\" already exists")), db)
    else
      let hostID := if req.hostID = 0 then m.localHostID else req.hostID
      if !m.hasClient hostID then
        (.error (("host ") ++ toString hostID ++ (" not connected")), db)
      else if db.nodes.any (fun n =>
          n.hostID == hostID && n.stakingPort == stakingPort &&
          n.status != ("stopped") && n.status != ("failed")) then
        (.error (("staking port ") ++ toString stakingPort ++ (" already in use on this host")), db)
      else
        let node : Node := { id := newID, name := req.name, hostID := hostID,
                             image := image, nodeID := (""), containerID := (""),
                             httpPort := 0, stakingPort := stakingPort,
                             status := ("creating") }
        let db' : DB := { db with nodes := db.nodes ++ [node] }
        (.ok node, logEvent insertOk db' ("node.creating") node.name ("Creating node") none)

/-- The outcome of the Docker-client calls a provisioning task makes:
the image-pull error (if any), the container-create result (container id
on success), and the container-start error (if any). -/
structure RuntimeOutcome where
  pullErr : Option String
  createRes : Except String String
  startErr : Option String
deriving Repr

/-- Model of `UPDATE nodes SET status=$1 WHERE id=$2`. -/
def setNodeStatus (db : DB) (nodeID : Nat) (status : String) : DB :=
  { db with nodes := db.nodes.map (fun n =>
      if n.id == nodeID then { n with status := status } else n) }

/-- Model of `UPDATE nodes SET container_id=$1 WHERE id=$2`. -/
def setNodeContainer (db : DB) (nodeID : Nat) (containerID : String) : DB :=
  { db with nodes := db.nodes.map (fun n =>
      if n.id == nodeID then { n with containerID := containerID } else n) }

/-- The `setStatus` closure inside `Manager.provisionNode`: updates the
node's status and logs a `node.<status>` event with the given message. -/
def provisionSetStatus (insertOk : Bool) (db : DB) (nodeID : Nat)
    (reqName status msg : String) : DB :=
  logEvent insertOk (setNodeStatus db nodeID status) (("node.") ++ status) reqName msg none

/-- Model of `Manager.provisionNode` (the asynchronous task spawned by `CreateNode`):
returns without touching the store when the host has no client; otherwise
pulls the image, creates the container, records its id, and starts it —
any failing step sets status `failed` with a message naming the step, and
success sets status `running`. -/
def provisionNode (m : Manager) (insertOk : Bool) (db : DB) (nodeID hostID : Nat)
    (req : CreateNodeRequest) (rt : RuntimeOutcome) : DB :=
  if !m.hasClient hostID then db
  else
    match rt.pullErr with
    | some e => provisionSetStatus insertOk db nodeID req.name ("failed")
        (("Image pull failed: ") ++ e)
    | none =>
      match rt.createRes with
      | .error e => provisionSetStatus insertOk db nodeID req.name ("failed")
          (("Container create failed: ") ++ e)
      | .ok containerID =>
        let db' := setNodeContainer db nodeID containerID
        match rt.startErr with
        | some e => provisionSetStatus insertOk db' nodeID req.name ("failed")
            (("Container start failed: ") ++ e)
        | none => provisionSetStatus insertOk db' nodeID req.name ("running") ("Node started")

/-- The status of the node row with the given id, if present. -/
def nodeStatus (db : DB) (id : Nat) : Option String :=
  (db.nodes.find? (fun n => n.id == id)).map (fun n => n.status)

/-- Go `strings.HasPrefix` over character lists: does the second list
start with the first? -/
def charsStartWith : List Char → List Char → Bool
  | [], _ => true
  | _ :: _, [] => false
  | a :: as, b :: bs => a == b && charsStartWith as bs

/-- Go `strings.Contains` over character lists: some suffix of `s` starts
with `sub` (an empty `sub` is always contained). -/
def charsContain (sub s : List Char) : Bool :=
  charsStartWith sub s ||
    match s with
    | [] => false
    | _ :: rest => charsContain sub rest

/-- Go `strings.Contains(s, sub)`. -/
def goContains (s sub : String) : Bool := charsContain sub.data s.data

/-- Result of `Manager.DeleteNode`: the error (if any), the updated store,
and the `ContainerRemove(containerID, removeVolumes)` call that was issued
to the Docker client, when one was. -/
structure DeleteNodeResult where
  res : Except String Unit
  db : DB
  removeCall : Option (String × Bool)
deriving Repr

/-- Model of `Manager.DeleteNode`: looks the node up; when it has a container,
requires a connected client, best-effort stops the container (result
ignored) and removes it with the caller's `removeVolumes` flag — a remove
error is fatal unless its message contains `No such container`, which is
treated as success.  It then deletes the node row and logs a
`node.deleted` event carrying the `remove_volumes` detail.
`removeErr` is the outcome of the `ContainerRemove` call (`none` =
success); it is irrelevant when the node has no container. -/
def DeleteNode (m : Manager) (insertOk : Bool) (db : DB) (id : Nat)
    (removeVolumes : Bool) (removeErr : Option String) : DeleteNodeResult :=
  match db.nodes.find? (fun n => n.id == id) with
  | none => ⟨.error ("get node: no rows in result set"), db, none⟩
  | some node =>
    let finish : Option (String × Bool) → DeleteNodeResult := fun call =>
      let db' : DB := { db with nodes := db.nodes.filter (fun n => n.id != id) }
      ⟨.ok (), logEvent insertOk db' ("node.deleted") node.name ("Node deleted")
          (some removeVolumes), call⟩
    if node.containerID != ("") then
      if !m.hasClient node.hostID then
        ⟨.error (("host ") ++ toString node.hostID ++ (" not connected")), db, none⟩
      else
        let call := some (node.containerID, removeVolumes)
        match removeErr with
        | some e =>
          if !goContains e ("No such container") then
            ⟨.error (("remove container: ") ++ e), db, call⟩
          else finish call
        | none => finish call
    else finish none

/-- What the health poller observed for one node in one cycle: the result
of the application-level health check, the result of `ContainerInspect`
(`none` = inspect error, `some b` = `State.Running` is `b`; only consulted
on an unhealthy running node), and the node id returned by the
`info.getNodeID` query (`none` = request failed; only consulted for a
healthy node with no recorded identity). -/
structure HealthObs where
  healthy : Bool
  inspectRunning : Option Bool
  fetchedNodeID : Option String
deriving Repr, DecidableEq

/-- The new status `Manager.pollHealth` computes for one polled node:
healthy and previously `unhealthy` → `running`; not healthy and previously
`running` → `unhealthy` when no client is available, otherwise `stopped`
when the inspect fails or shows the container not running and `unhealthy`
when it shows it running; otherwise the status is unchanged. -/
def pollNodeNewStatus (m : Manager) (node : Node) (obs : HealthObs) : String :=
  if obs.healthy && node.status == ("unhealthy") then ("running")
  else if !obs.healthy && node.status == ("running") then
    if !m.hasClient node.hostID then ("unhealthy")
    else
      match obs.inspectRunning with
      | none => ("stopped")
      | some running => if running then ("unhealthy") else ("stopped")
  else node.status

/-- Model of `Manager.fetchAndStoreNodeID`: if the identity query failed or returned
an empty id, do nothing; otherwise store the id on the node row and log a
`node.identified` event. -/
def fetchAndStoreNodeID (insertOk : Bool) (db : DB) (node : Node)
    (fetched : Option String) : DB :=
  match fetched with
  | none => db
  | some s =>
    if s = ("") then db
    else
      let db' : DB := { db with nodes := db.nodes.map (fun n =>
        if n.id == node.id then { n with nodeID := s } else n) }
      logEvent insertOk db' ("node.identified") node.name (("Node ID: ") ++ s) none

/-- One node's step of a `Manager.pollHealth` cycle: nodes whose status is
neither `running` nor `unhealthy`, or with no container id, are skipped;
otherwise the new status is computed, persisted and logged when it
differs, and the node identity is fetched for a healthy node that has
none recorded. -/
def pollNodeStep (m : Manager) (insertOk : Bool) (db : DB) (node : Node)
    (obs : HealthObs) : DB :=
  if node.status != ("running") && node.status != ("unhealthy") then db
  else if node.containerID == ("") then db
  else
    let newStatus := pollNodeNewStatus m node obs
    let db' :=
      if newStatus != node.status then
        logEvent insertOk (setNodeStatus db node.id newStatus) ("node.health") node.name
          (("Status changed: ") ++ node.status ++ (" → ") ++ newStatus) none
      else db
    if obs.healthy && node.nodeID == ("") then
      fetchAndStoreNodeID insertOk db' node obs.fetchedNodeID
    else db'

/-- The per-host map of managed-container states observed by
`Manager.reconcile`: host id → (container name → container state).  A host
missing from the outer list had no live client (or its container listing
failed). -/
abbrev ContainerStates : Type := List (Nat × List (String × String))

/-- Look up the observed state map for a host. -/
def lookupHost (states : ContainerStates) (hostID : Nat) : Option (List (String × String)) :=
  (states.find? (fun p => p.1 == hostID)).map (fun p => p.2)

/-- Look up a container's observed state in a host's state map. -/
def lookupState (stateMap : List (String × String)) (name : String) : Option String :=
  (stateMap.find? (fun p => p.1 == name)).map (fun p => p.2)

/-- The status `Manager.reconcile` derives from an observed container
state: absent → `stopped`; `running` → `running`; `exited`/`dead` →
`stopped`; `created`/`restarting` → `creating`; anything else →
`stopped`. -/
def deriveStatus (observed : Option String) : String :=
  match observed with
  | none => ("stopped")
  | some state =>
    if state == ("running") then ("running")
    else if state == ("exited") || state == ("dead") then ("stopped")
    else if state == ("created") || state == ("restarting") then ("creating")
    else ("stopped")

/-- The status one node ends up with after a `Manager.reconcile` run:
nodes with no container id, and nodes on a host with no observed state
map (no live client), keep their persisted status; otherwise the status
derived from the observed state of the container named `avax-<name>`. -/
def reconcileNodeStatus (states : ContainerStates) (node : Node) : String :=
  if node.containerID == ("") then node.status
  else
    match lookupHost states node.hostID with
    | none => node.status
    | some stateMap => deriveStatus (lookupState stateMap (("avax-") ++ node.name))

/-- Model of `Manager.reconcile`: reads the node list once, and for each node writes
back the derived status exactly when it differs from the persisted one.
Returns the updated store and the list of `(node id, new status)` writes
issued.  Reconciliation appends no events (its status changes are only
written to the slog); node-row ids are primary keys, so the per-row
`UPDATE ... WHERE id` writes are modelled as an independent update of each
row. -/
def reconcile (states : ContainerStates) (db : DB) : DB × List (Nat × String) :=
  ({ db with nodes := db.nodes.map (fun n => { n with status := reconcileNodeStatus states n }) },
   db.nodes.filterMap (fun n =>
     let s := reconcileNodeStatus states n
     if s != n.status then some (n.id, s) else none))

/-! ## Helper lemmas -/

theorem logEvent_nodes (insertOk : Bool) (db : DB) (t g msg : String) (d : Option Bool) :
    (logEvent insertOk db t g msg d).nodes = db.nodes := by
  unfold logEvent; split <;> rfl

theorem logEvent_l1s (insertOk : Bool) (db : DB) (t g msg : String) (d : Option Bool) :
    (logEvent insertOk db t g msg d).l1s = db.l1s := by
  unfold logEvent; split <;> rfl

theorem logEvent_validators (insertOk : Bool) (db : DB) (t g msg : String) (d : Option Bool) :
    (logEvent insertOk db t g msg d).validators = db.validators := by
  unfold logEvent; split <;> rfl

theorem logEvent_core (insertOk : Bool) (db : DB) (t g msg : String) (d : Option Bool) :
    (logEvent insertOk db t g msg d).core = db.core := by
  unfold logEvent; split <;> rfl

theorem logEvent_true_mem (db : DB) (t g msg : String) (d : Option Bool) :
    Event.mk t g msg d ∈ (logEvent true db t g msg d).events := by
  simp [logEvent]

theorem logEvent_mem_mono (insertOk : Bool) (db : DB) (t g msg : String) (d : Option Bool)
    (e : Event) (h : e ∈ db.events) : e ∈ (logEvent insertOk db t g msg d).events := by
  unfold logEvent; split
  · exact List.mem_append_left _ h
  · exact h

/-- Finding by id over a map that rewrites the row of a fixed id. -/
theorem find?_map_ite_id (nodes : List Node) (nid : Nat) (f : Node → Node)
    (hid : ∀ n, (f n).id = n.id) (id : Nat) :
    (nodes.map (fun n => if n.id == nid then f n else n)).find? (fun n => n.id == id)
      = (nodes.find? (fun n => n.id == id)).map (fun n => if n.id == nid then f n else n) := by
  induction nodes with
  | nil => rfl
  | cons a t ih =>
    simp only [List.map_cons]
    by_cases ha : (a.id == id) = true
    · have h1 : ((if (a.id == nid) = true then f a else a).id == id) = true := by
        split <;> simp [hid, ha]
      rw [List.find?_cons_of_pos (p := fun n : Node => n.id == id) _ h1,
          List.find?_cons_of_pos (p := fun n : Node => n.id == id) _ ha]
      simp
    · have h1 : ¬((if (a.id == nid) = true then f a else a).id == id) = true := by
        split <;> simp [hid, ha]
      rw [List.find?_cons_of_neg (p := fun n : Node => n.id == id) _ h1,
          List.find?_cons_of_neg (p := fun n : Node => n.id == id) _ ha, ih]

theorem nodeStatus_setNodeStatus_self (db : DB) (id : Nat) (s : String)
    (h : (db.nodes.find? (fun n => n.id == id)).isSome = true) :
    nodeStatus (setNodeStatus db id s) id = some s := by
  unfold nodeStatus setNodeStatus
  rw [find?_map_ite_id db.nodes id (fun n => { n with status := s }) (fun n => rfl) id]
  obtain ⟨n, hn⟩ := Option.isSome_iff_exists.mp h
  have hpn : (n.id == id) = true := List.find?_some (p := fun n : Node => n.id == id) hn
  rw [beq_iff_eq] at hpn
  simp [hn, hpn]

theorem nodeStatus_setNodeContainer (db : DB) (nid : Nat) (c : String) (id : Nat) :
    nodeStatus (setNodeContainer db nid c) id = nodeStatus db id := by
  unfold nodeStatus setNodeContainer
  rw [find?_map_ite_id db.nodes nid (fun n => { n with containerID := c }) (fun n => rfl) id]
  cases h : db.nodes.find? (fun n => n.id == id) with
  | none => rfl
  | some n =>
    simp only [Option.map_some']
    split <;> rfl

theorem nodeStatus_logEvent (insertOk : Bool) (db : DB) (t g msg : String) (d : Option Bool)
    (id : Nat) : nodeStatus (logEvent insertOk db t g msg d) id = nodeStatus db id := by
  unfold nodeStatus
  rw [logEvent_nodes]

theorem nodeStatus_fetchAndStoreNodeID (insertOk : Bool) (db : DB) (node : Node)
    (fetched : Option String) (id : Nat) :
    nodeStatus (fetchAndStoreNodeID insertOk db node fetched) id = nodeStatus db id := by
  cases fetched with
  | none => rfl
  | some s =>
    by_cases hs : s = ("")
    · simp [fetchAndStoreNodeID, hs]
    · simp only [fetchAndStoreNodeID]
      rw [if_neg hs, nodeStatus_logEvent]
      unfold nodeStatus
      rw [find?_map_ite_id db.nodes node.id (fun n => { n with nodeID := s }) (fun n => rfl) id]
      cases h : db.nodes.find? (fun n => n.id == id) with
      | none => rfl
      | some n =>
        simp only [Option.map_some']
        split <;> rfl

theorem fetchAndStoreNodeID_mem_mono (insertOk : Bool) (db : DB) (node : Node)
    (fetched : Option String) (e : Event) (h : e ∈ db.events) :
    e ∈ (fetchAndStoreNodeID insertOk db node fetched).events := by
  cases fetched with
  | none => exact h
  | some s =>
    by_cases hs : s = ("")
    · simpa [fetchAndStoreNodeID, hs] using h
    · simp only [fetchAndStoreNodeID]
      rw [if_neg hs]
      exact logEvent_mem_mono _ _ _ _ _ _ _ h

/-! ## Concrete fixtures used by the witnesses -/

/-- An empty store. -/
def dbEmpty : DB := ⟨[], [], [], []⟩

/-- A manager with local host id 1, no remote clients. -/
def mgrW : Manager := ⟨("avaplatform/avalanchego:latest"), 1, []⟩

/-- A creation request supplying a subnet id. -/
def reqL1W : CreateL1Request := ⟨("s2"), (""), ("abc"), ("")⟩

/-- The L1 row `CreateL1` inserts for `reqL1W` with id 7. -/
def l1W : L1 := ⟨7, ("s2"), ("abc"), (""), ("subnet-evm"), ("configured")⟩

/-- A running node row with id 3 on host 1. -/
def nodeW : Node := ⟨3, ("n1"), 1, ("img"), (""), ("c123"), 0, 9651, ("running")⟩

/-- A store holding the configured L1 `l1W` and the node `nodeW`. -/
def dbAV : DB := ⟨[nodeW], [l1W], [], []⟩

/-! ## Claims -/

/-- C9: An L1's status is `pending` iff its subnet identifier is empty:
`CreateL1` sets status `configured` exactly when a non-empty subnet
identifier is supplied and `pending` otherwise, and `RemoveValidator`
(including removing the last validator) never changes the L1's status
field — the `l1s` table is untouched by it. -/
theorem l1_status_pending_iff_subnet_empty (insertOk : Bool) (db : DB) :
    (∀ newID req l1 db', CreateL1 insertOk db newID req = (Except.ok l1, db') →
      l1.subnetID = req.subnetID ∧
      (l1.status = ("configured") ↔ l1.subnetID ≠ ("")) ∧
      (l1.status = ("pending") ↔ l1.subnetID = (""))) ∧
    (∀ l1ID nodeID, (RemoveValidator insertOk db l1ID nodeID).db.l1s = db.l1s) := by
  constructor
  · intro newID req l1 db' hok
    simp only [CreateL1] at hok
    split at hok
    · simp at hok
    · split at hok
      · simp at hok
      · rw [Prod.mk.injEq] at hok
        obtain ⟨h1, _⟩ := hok
        rw [Except.ok.injEq] at h1
        subst h1
        by_cases hs : req.subnetID = ("") <;> simp [hs]
  · intro l1ID nodeID
    unfold RemoveValidator
    cases db.l1s.find? (fun l => l.id == l1ID) with
    | none => rfl
    | some l1 =>
      dsimp only
      split
      · rfl
      · rw [logEvent_l1s]

/-- Witness for C9 at a concrete input: creating L1 `s2` with subnet id
`abc` yields status `configured`, and a `RemoveValidator` call leaves the
`l1s` table unchanged. -/
theorem l1_status_pending_iff_subnet_empty_witness :
    l1W.status = ("configured") ∧
    (RemoveValidator true dbEmpty 1 2).db.l1s = dbEmpty.l1s := by
  have h := l1_status_pending_iff_subnet_empty true dbEmpty
  refine ⟨?_, h.2 1 2⟩
  have h2 := h.1 7 reqL1W l1W ((CreateL1 true dbEmpty 7 reqL1W).2) rfl
  exact h2.2.1.mpr (by decide)

/-- C8: a successful `AddValidator` inserts the assignment with weight
defaulting to 100 when the requested weight is non-positive, and spawns a
reconfiguration task for the node iff the target L1's subnet identifier is
non-empty (a `pending` L1 never triggers one; a `configured` L1 always
does). -/
theorem addValidator_default_weight_and_trigger (insertOk : Bool) (db : DB)
    (newID l1ID : Nat) (req : AddValidatorRequest) (l1 : L1)
    (hl1 : db.l1s.find? (fun l => l.id == l1ID) = some l1)
    (hnode : (db.nodes.find? (fun n => n.id == req.nodeID)).isSome = true)
    (hdup : db.validators.any (fun v => v.l1ID == l1ID && v.nodeID == req.nodeID) = false) :
    (∃ v, (AddValidator insertOk db newID l1ID req).res = Except.ok v ∧
        v.weight = (if req.weight ≤ 0 then 100 else req.weight) ∧
        v ∈ (AddValidator insertOk db newID l1ID req).db.validators) ∧
    ((AddValidator insertOk db newID l1ID req).reconfigureTriggered = true ↔
        l1.subnetID ≠ ("")) := by
  obtain ⟨node, hn⟩ := Option.isSome_iff_exists.mp hnode
  simp only [AddValidator, hl1, hn, hdup, Bool.false_eq_true, if_false]
  constructor
  · refine ⟨⟨newID, l1ID, req.nodeID, if req.weight ≤ 0 then 100 else req.weight, ("")⟩,
      rfl, rfl, ?_⟩
    rw [logEvent_validators]
    simp
  · simp [bne_iff_ne]

/-- Witness for C8 at a concrete input: adding node 3 with weight 0 to the
configured L1 `l1W` inserts weight 100 and triggers reconfiguration. -/
theorem addValidator_default_weight_and_trigger_witness :
    (∃ v, (AddValidator true dbAV 8 7 ⟨3, 0⟩).res = Except.ok v ∧
        v.weight = (if (0 : Int) ≤ 0 then 100 else 0) ∧
        v ∈ (AddValidator true dbAV 8 7 ⟨3, 0⟩).db.validators) ∧
    ((AddValidator true dbAV 8 7 ⟨3, 0⟩).reconfigureTriggered = true ↔
        l1W.subnetID ≠ ("")) :=
  addValidator_default_weight_and_trigger true dbAV 8 7 ⟨3, 0⟩ l1W
    (by decide) (by decide) (by decide)

/-- C2: a `CreateNode` call whose requested (non-empty) name equals the
name of an already-existing node returns the duplicate-name conflict error
and leaves the store unchanged — no node row is inserted. -/
theorem createNode_duplicate_name_conflict (m : Manager) (insertOk : Bool) (db : DB)
    (newID : Nat) (req : CreateNodeRequest)
    (hname : req.name ≠ (""))
    (hdup : ∃ n ∈ db.nodes, n.name = req.name) :
    CreateNode m insertOk db newID req =
      (Except.error (("node \"") ++ req.name ++ ("\" already exists")), db) := by
  have hany : db.nodes.any (fun n => n.name == req.name) = true := by
    obtain ⟨n, hn, he⟩ := hdup
    exact List.any_eq_true.mpr ⟨n, hn, by simp [he]⟩
  simp only [CreateNode]
  rw [if_neg hname]
  simp [hany]

/-- Witness for C2 at a concrete input: creating a second node named `n1`
fails with the conflict error and the store is unchanged. -/
theorem createNode_duplicate_name_conflict_witness :
    CreateNode mgrW true dbAV 9 ⟨("n1"), (""), 0, false, 0⟩ =
      (Except.error (("node \"") ++ ("n1") ++ ("\" already exists")), dbAV) :=
  createNode_duplicate_name_conflict mgrW true dbAV 9 ⟨("n1"), (""), 0, false, 0⟩
    (by decide) ⟨nodeW, by decide, by decide⟩

/-- C3: with the staking port defaulting to 9651 when the request gives 0
and the host defaulting to local, a `CreateNode` call (with a fresh,
non-empty name and a connected target host) fails with the port-conflict
error exactly when some existing node on that host holds the port in a
status outside `stopped`/`failed`; when every node holding that port on
that host is `stopped` or `failed` (in particular when the port is held
only on other hosts), the call succeeds. -/
theorem createNode_port_conflict_scoped (m : Manager) (insertOk : Bool) (db : DB)
    (newID : Nat) (req : CreateNodeRequest)
    (hname : req.name ≠ (""))
    (hfresh : ∀ n ∈ db.nodes, n.name ≠ req.name) :
    let port := if req.stakingPort = 0 then 9651 else req.stakingPort
    let hostID := if req.hostID = 0 then m.localHostID else req.hostID
    m.hasClient hostID = true →
    ((∃ n ∈ db.nodes, n.hostID = hostID ∧ n.stakingPort = port ∧
        n.status ≠ ("stopped") ∧ n.status ≠ ("failed")) →
      CreateNode m insertOk db newID req =
        (Except.error (("staking port ") ++ toString port ++ (" already in use on this host")), db)) ∧
    ((∀ n ∈ db.nodes, n.hostID = hostID → n.stakingPort = port →
        n.status = ("stopped") ∨ n.status = ("failed")) →
      ∃ node db', CreateNode m insertOk db newID req = (Except.ok node, db') ∧
        node.stakingPort = port ∧ node.hostID = hostID ∧ node.status = ("creating")) := by
  intro port hostID hclient
  have hanyName : db.nodes.any (fun n => n.name == req.name) = false := by
    rw [List.any_eq_false]
    intro n hn
    simp [hfresh n hn]
  constructor
  · rintro ⟨n, hn, h1, h2, h3, h4⟩
    have hanyPort : db.nodes.any (fun n =>
        n.hostID == hostID && n.stakingPort == port &&
        n.status != ("stopped") && n.status != ("failed")) = true := by
      refine List.any_eq_true.mpr ⟨n, hn, ?_⟩
      simp [h1, h2, h3, h4]
    simp only [CreateNode]
    rw [if_neg hname]
    simp [hanyName, hclient, hanyPort]
  · intro hall
    have hanyPort : db.nodes.any (fun n =>
        n.hostID == hostID && n.stakingPort == port &&
        n.status != ("stopped") && n.status != ("failed")) = false := by
      rw [List.any_eq_false]
      intro n hn
      by_cases h1 : n.hostID = hostID
      · by_cases h2 : n.stakingPort = port
        · rcases hall n hn h1 h2 with h | h <;> simp [h1, h2, h]
        · simp [h2]
      · simp [h1]
    simp only [CreateNode]
    rw [if_neg hname]
    simp only [hanyName, Bool.false_eq_true, if_false, hclient, Bool.not_true, hanyPort]
    exact ⟨_, _, rfl, rfl, rfl, rfl⟩

/-- Witness for C3 at concrete inputs: on a host whose running node `n1`
holds port 9651, creating `n2` with the default port fails with the
port-conflict error, while creating it on port 9700 succeeds in
`creating` status. -/
theorem createNode_port_conflict_scoped_witness :
    (CreateNode mgrW true dbAV 9 ⟨("n2"), (""), 0, false, 0⟩ =
      (Except.error (("staking port ") ++ toString (9651 : Nat) ++ (" already in use on this host")), dbAV)) ∧
    (∃ node db', CreateNode mgrW true dbAV 9 ⟨("n2"), (""), 9700, false, 0⟩ = (Except.ok node, db') ∧
      node.stakingPort = 9700 ∧ node.hostID = 1 ∧ node.status = ("creating")) := by
  constructor
  · exact (createNode_port_conflict_scoped mgrW true dbAV 9 ⟨("n2"), (""), 0, false, 0⟩
      (by decide) (by decide) (by decide)).1
      ⟨nodeW, by decide, by decide, by decide, by decide, by decide⟩
  · exact (createNode_port_conflict_scoped mgrW true dbAV 9 ⟨("n2"), (""), 9700, false, 0⟩
      (by decide) (by decide) (by decide)).2 (by decide)

/-- C4: for a `DeleteNode` call on an existing node (with a connected host
when the node has a container), a `No such container` error from container
removal — a container already removed out-of-band — is treated like
success: in both cases the node row is deleted, the deletion event is
logged, and the caller's `removeVolumes` flag was passed through to the
`ContainerRemove` call. -/
theorem deleteNode_idempotent_removal (m : Manager) (insertOk : Bool) (db : DB)
    (id : Nat) (removeVolumes : Bool) (removeErr : Option String) (node : Node)
    (hnode : db.nodes.find? (fun n => n.id == id) = some node)
    (hclient : node.containerID ≠ ("") → m.hasClient node.hostID = true)
    (hok : removeErr = none ∨
           ∃ e, removeErr = some e ∧ goContains e ("No such container") = true) :
    (DeleteNode m insertOk db id removeVolumes removeErr).res = Except.ok () ∧
    (DeleteNode m insertOk db id removeVolumes removeErr).db.nodes =
      db.nodes.filter (fun n => n.id != id) ∧
    (insertOk = true →
      Event.mk ("node.deleted") node.name ("Node deleted") (some removeVolumes) ∈
        (DeleteNode m insertOk db id removeVolumes removeErr).db.events) ∧
    (node.containerID ≠ ("") →
      (DeleteNode m insertOk db id removeVolumes removeErr).removeCall =
        some (node.containerID, removeVolumes)) := by
  have hred : DeleteNode m insertOk db id removeVolumes removeErr =
      ⟨Except.ok (),
        logEvent insertOk { db with nodes := db.nodes.filter (fun n => n.id != id) }
          ("node.deleted") node.name ("Node deleted") (some removeVolumes),
        if node.containerID != ("") then some (node.containerID, removeVolumes) else none⟩ := by
    simp only [DeleteNode, hnode]
    by_cases hcid : node.containerID = ("")
    · simp [hcid]
    · have hcl := hclient hcid
      rcases hok with he | ⟨e, he, hce⟩
      · subst he
        simp [hcid, hcl]
      · subst he
        simp [hcid, hcl, hce]
  rw [hred]
  refine ⟨rfl, ?_, ?_, ?_⟩
  · rw [logEvent_nodes]
  · intro hIns
    subst hIns
    exact logEvent_true_mem _ _ _ _ _
  · intro hcid
    simp [hcid]

/-- Witness for C4 at a concrete input: deleting node 3 whose container
remove reports `No such container` succeeds, drops the row, logs the
event, and passed `removeVolumes = true` to the remove call. -/
theorem deleteNode_idempotent_removal_witness :
    (DeleteNode mgrW true dbAV 3 true (some ("No such container: c123"))).res = Except.ok () ∧
    (DeleteNode mgrW true dbAV 3 true (some ("No such container: c123"))).db.nodes =
      dbAV.nodes.filter (fun n => n.id != 3) ∧
    (true = true →
      Event.mk ("node.deleted") nodeW.name ("Node deleted") (some true) ∈
        (DeleteNode mgrW true dbAV 3 true (some ("No such container: c123"))).db.events) ∧
    (nodeW.containerID ≠ ("") →
      (DeleteNode mgrW true dbAV 3 true (some ("No such container: c123"))).removeCall =
        some (nodeW.containerID, true)) :=
  deleteNode_idempotent_removal mgrW true dbAV 3 true (some ("No such container: c123")) nodeW
    (by decide) (fun _ => by decide) (Or.inr ⟨_, rfl, by decide⟩)

theorem find?_isSome_of_nodeStatus (db : DB) (id : Nat) (s : String)
    (h : nodeStatus db id = some s) :
    (db.nodes.find? (fun n => n.id == id)).isSome = true := by
  unfold nodeStatus at h
  cases hf : db.nodes.find? (fun n => n.id == id) with
  | none => rw [hf] at h; simp at h
  | some n => rfl

theorem nodeStatus_provisionSetStatus (insertOk : Bool) (db : DB) (id : Nat)
    (rn st msg : String) (h : (db.nodes.find? (fun n => n.id == id)).isSome = true) :
    nodeStatus (provisionSetStatus insertOk db id rn st msg) id = some st := by
  unfold provisionSetStatus
  rw [nodeStatus_logEvent, nodeStatus_setNodeStatus_self _ _ _ h]

theorem provisionSetStatus_mem (db : DB) (id : Nat) (rn st msg : String) :
    Event.mk (("node.") ++ st) rn msg none ∈ (provisionSetStatus true db id rn st msg).events := by
  unfold provisionSetStatus
  exact logEvent_true_mem _ _ _ _ _

/-- Inversion of a successful `CreateNode`: the returned node carries the
fresh id and `creating` status, and the store got exactly that row
appended. -/
theorem createNode_ok_inv (m : Manager) (insertOk : Bool) (db : DB) (newID : Nat)
    (req : CreateNodeRequest) (node : Node) (db₁ : DB)
    (hok : CreateNode m insertOk db newID req = (Except.ok node, db₁)) :
    node.id = newID ∧ node.status = ("creating") ∧ db₁.nodes = db.nodes ++ [node] := by
  dsimp only [CreateNode] at hok
  repeat' split at hok
  all_goals
    first
    | (simp at hok; done)
    | (rw [Prod.mk.injEq] at hok;
       obtain ⟨h1, h2⟩ := hok;
       rw [Except.ok.injEq] at h1;
       subst h1;
       subst h2;
       refine ⟨rfl, rfl, ?_⟩;
       rw [logEvent_nodes])

/-- C1: a successful `CreateNode` leaves the inserted node immediately
observable in `creating` status, and (with the host's client available,
as `CreateNode` checked) the asynchronous provisioning task always
terminates with the node in exactly one of `running` or `failed`: a
failing image pull, container create or container start sets `failed`
with a logged message naming the step, and success sets `running` —
the node never stays in `creating`. -/
theorem createNode_then_provision_terminal (m : Manager) (insertOk : Bool) (db : DB)
    (newID : Nat) (req : CreateNodeRequest) (node : Node) (db₁ : DB)
    (hok : CreateNode m insertOk db newID req = (Except.ok node, db₁))
    (hfresh : ∀ n ∈ db.nodes, n.id ≠ newID) :
    node.status = ("creating") ∧
    nodeStatus db₁ node.id = some ("creating") ∧
    ∀ (req' : CreateNodeRequest) (rt : RuntimeOutcome),
      m.hasClient node.hostID = true →
      (nodeStatus (provisionNode m insertOk db₁ node.id node.hostID req' rt) node.id = some ("running") ∨
       nodeStatus (provisionNode m insertOk db₁ node.id node.hostID req' rt) node.id = some ("failed")) ∧
      (∀ cid, rt.pullErr = none → rt.createRes = Except.ok cid → rt.startErr = none →
        nodeStatus (provisionNode m insertOk db₁ node.id node.hostID req' rt) node.id = some ("running")) ∧
      (∀ e, rt.pullErr = some e →
        nodeStatus (provisionNode m insertOk db₁ node.id node.hostID req' rt) node.id = some ("failed") ∧
        (insertOk = true →
          Event.mk ("node.failed") req'.name (("Image pull failed: ") ++ e) none ∈
            (provisionNode m insertOk db₁ node.id node.hostID req' rt).events)) ∧
      (∀ e, rt.pullErr = none → rt.createRes = Except.error e →
        nodeStatus (provisionNode m insertOk db₁ node.id node.hostID req' rt) node.id = some ("failed") ∧
        (insertOk = true →
          Event.mk ("node.failed") req'.name (("Container create failed: ") ++ e) none ∈
            (provisionNode m insertOk db₁ node.id node.hostID req' rt).events)) ∧
      (∀ e cid, rt.pullErr = none → rt.createRes = Except.ok cid → rt.startErr = some e →
        nodeStatus (provisionNode m insertOk db₁ node.id node.hostID req' rt) node.id = some ("failed") ∧
        (insertOk = true →
          Event.mk ("node.failed") req'.name (("Container start failed: ") ++ e) none ∈
            (provisionNode m insertOk db₁ node.id node.hostID req' rt).events)) := by
  obtain ⟨hid, hstat, hnodes⟩ := createNode_ok_inv m insertOk db newID req node db₁ hok
  have hfind : db₁.nodes.find? (fun n => n.id == node.id) = some node := by
    rw [hnodes, List.find?_append]
    have h0 : db.nodes.find? (fun n => n.id == node.id) = none := by
      rw [List.find?_eq_none]
      intro n hn
      simp [hid, hfresh n hn]
    rw [h0]
    simp
  have hcreating : nodeStatus db₁ node.id = some ("creating") := by
    unfold nodeStatus
    rw [hfind]
    simp [hstat]
  refine ⟨hstat, hcreating, ?_⟩
  intro req' rt hcl
  have hsome : (db₁.nodes.find? (fun n => n.id == node.id)).isSome = true := by
    rw [hfind]; rfl
  have hcontSome : ∀ cid, ((setNodeContainer db₁ node.id cid).nodes.find?
      (fun n => n.id == node.id)).isSome = true := by
    intro cid
    refine find?_isSome_of_nodeStatus _ _ ("creating") ?_
    rw [nodeStatus_setNodeContainer]
    exact hcreating
  have hprov : ∀ st msg, nodeStatus (provisionSetStatus insertOk db₁ node.id req'.name st msg) node.id = some st :=
    fun st msg => nodeStatus_provisionSetStatus insertOk db₁ node.id req'.name st msg hsome
  have hprovC : ∀ cid st msg,
      nodeStatus (provisionSetStatus insertOk (setNodeContainer db₁ node.id cid) node.id req'.name st msg) node.id = some st :=
    fun cid st msg => nodeStatus_provisionSetStatus insertOk _ node.id req'.name st msg (hcontSome cid)
  simp only [provisionNode, hcl, Bool.not_true, Bool.false_eq_true, if_false]
  cases hp : rt.pullErr with
  | some e =>
    refine ⟨Or.inr (hprov _ _), ?_, ?_, ?_, ?_⟩
    · intro cid h1 _ _; simp at h1
    · intro e' he
      cases he
      refine ⟨hprov _ _, ?_⟩
      intro hIns
      subst hIns
      exact provisionSetStatus_mem _ _ _ _ _
    · intro e' h1 _; simp at h1
    · intro e' cid h1 _ _; simp at h1
  | none =>
    cases hc : rt.createRes with
    | error e =>
      refine ⟨Or.inr (hprov _ _), ?_, ?_, ?_, ?_⟩
      · intro cid _ h2 _; simp at h2
      · intro e' he; simp at he
      · intro e' _ h2
        cases h2
        refine ⟨hprov _ _, ?_⟩
        intro hIns
        subst hIns
        exact provisionSetStatus_mem _ _ _ _ _
      · intro e' cid _ h2 _; simp at h2
    | ok cid =>
      cases hs : rt.startErr with
      | some e =>
        refine ⟨Or.inr (hprovC _ _ _), ?_, ?_, ?_, ?_⟩
        · intro cid' _ _ h3; simp at h3
        · intro e' he; simp at he
        · intro e' _ h2; simp at h2
        · intro e' cid' _ h2 h3
          cases h2
          cases h3
          refine ⟨hprovC _ _ _, ?_⟩
          intro hIns
          subst hIns
          exact provisionSetStatus_mem _ _ _ _ _
      | none =>
        refine ⟨Or.inl (hprovC _ _ _), ?_, ?_, ?_, ?_⟩
        · intro cid' _ h2 _
          cases h2
          exact hprovC _ _ _
        · intro e' he; simp at he
        · intro e' _ h2; simp at h2
        · intro e' cid' _ _ h3; simp at h3

/-- The node `CreateNode` returns for the witness request below. -/
def nodeC1W : Node :=
  ⟨1, ("n1"), 1, ("avaplatform/avalanchego:latest"), (""), (""), 0, 9651, ("creating")⟩

/-- Witness for C1 at a concrete input: the created node is in `creating`
status, and a provisioning run whose pull/create/start all succeed leaves
it in `running` status. -/
theorem createNode_then_provision_terminal_witness :
    nodeC1W.status = ("creating") ∧
    nodeStatus (provisionNode mgrW true (CreateNode mgrW true dbEmpty 1 ⟨("n1"), (""), 0, false, 0⟩).2
        nodeC1W.id nodeC1W.hostID ⟨("n1"), ("img"), 9651, false, 1⟩
        ⟨none, Except.ok ("c9"), none⟩) nodeC1W.id = some ("running") := by
  have h := createNode_then_provision_terminal mgrW true dbEmpty 1 ⟨("n1"), (""), 0, false, 0⟩
      nodeC1W ((CreateNode mgrW true dbEmpty 1 ⟨("n1"), (""), 0, false, 0⟩).2) rfl (by decide)
  refine ⟨h.1, ?_⟩
  exact (h.2.2 ⟨("n1"), ("img"), 9651, false, 1⟩ ⟨none, Except.ok ("c9"), none⟩
    (by decide)).2.1 ("c9") rfl rfl rfl

/-- C5: for a polled node (status `running` or `unhealthy`, non-empty
container id) in a health-poll cycle: a healthy check on an `unhealthy`
node moves it to `running`; a failed check on a `running` node (with the
host's client available) inspects the container and moves the node to
`stopped` when the inspect fails or reports the container not running,
and to `unhealthy` otherwise; any resulting status change is persisted
and an event naming the old-to-new transition is logged. -/
theorem pollHealth_status_transitions (m : Manager) (insertOk : Bool) (db : DB)
    (node : Node) (obs : HealthObs)
    (hstat : node.status = ("running") ∨ node.status = ("unhealthy"))
    (hcid : node.containerID ≠ (""))
    (hfind : db.nodes.find? (fun n => n.id == node.id) = some node) :
    (obs.healthy = true → node.status = ("unhealthy") →
      pollNodeNewStatus m node obs = ("running")) ∧
    (obs.healthy = false → node.status = ("running") → m.hasClient node.hostID = true →
      (((obs.inspectRunning = none ∨ obs.inspectRunning = some false) →
         pollNodeNewStatus m node obs = ("stopped")) ∧
       (obs.inspectRunning = some true →
         pollNodeNewStatus m node obs = ("unhealthy")))) ∧
    (pollNodeNewStatus m node obs ≠ node.status →
      nodeStatus (pollNodeStep m insertOk db node obs) node.id =
        some (pollNodeNewStatus m node obs) ∧
      (insertOk = true →
        Event.mk ("node.health") node.name
            (("Status changed: ") ++ node.status ++ (" → ") ++ pollNodeNewStatus m node obs)
            none ∈
          (pollNodeStep m insertOk db node obs).events)) := by
  refine ⟨?_, ?_, ?_⟩
  · intro hh hu
    simp [pollNodeNewStatus, hh, hu]
  · intro hh hr hcl
    constructor
    · intro hi
      rcases hi with hi | hi <;> simp [pollNodeNewStatus, hh, hr, hcl, hi]
    · intro hi
      simp [pollNodeNewStatus, hh, hr, hcl, hi]
  · intro hne
    have hsome : (db.nodes.find? (fun n => n.id == node.id)).isSome = true := by
      rw [hfind]; rfl
    have hskip1 : (node.status != ("running") && node.status != ("unhealthy")) = false := by
      rcases hstat with h | h <;> simp [h]
    have hskip2 : (node.containerID == ("")) = false := by
      simp [hcid]
    have hbne : (pollNodeNewStatus m node obs != node.status) = true := by
      simp [hne]
    simp only [pollNodeStep, hskip1, Bool.false_eq_true, if_false, hskip2, hbne, if_true]
    constructor
    · split
      · rw [nodeStatus_fetchAndStoreNodeID, nodeStatus_logEvent,
            nodeStatus_setNodeStatus_self _ _ _ hsome]
      · rw [nodeStatus_logEvent, nodeStatus_setNodeStatus_self _ _ _ hsome]
    · intro hIns
      subst hIns
      split
      · exact fetchAndStoreNodeID_mem_mono _ _ _ _ _ (logEvent_true_mem _ _ _ _ _)
      · exact logEvent_true_mem _ _ _ _ _

/-- An unhealthy node row used by the C5 witness. -/
def nodeU : Node := ⟨3, ("n1"), 1, ("img"), (""), ("c123"), 0, 9651, ("unhealthy")⟩

/-- A store holding only `nodeU`. -/
def dbU : DB := ⟨[nodeU], [], [], []⟩

/-- Witness for C5 at a concrete input: a healthy check on the unhealthy
node `nodeU` computes `running`, and the poll step persists it. -/
theorem pollHealth_status_transitions_witness :
    pollNodeNewStatus mgrW nodeU ⟨true, none, none⟩ = ("running") ∧
    nodeStatus (pollNodeStep mgrW true dbU nodeU ⟨true, none, none⟩) nodeU.id =
      some (pollNodeNewStatus mgrW nodeU ⟨true, none, none⟩) := by
  have h := pollHealth_status_transitions mgrW true dbU nodeU ⟨true, none, none⟩
    (Or.inr (by decide)) (by decide) (by decide)
  exact ⟨h.1 rfl (by decide), (h.2.2 (by decide)).1⟩

/-- C6: for every node with a non-empty container id whose host has an
observed state map, reconciliation derives: container absent → `stopped`;
`running` → `running`; `exited`/`dead` → `stopped`; `created`/`restarting`
→ `creating`; any other state → `stopped`; the derived status is written
back exactly when it differs from the persisted one, and nodes on hosts
with no live client keep their persisted status. -/
theorem reconcile_derivation (states : ContainerStates) (db : DB) (node : Node)
    (hmem : node ∈ db.nodes)
    (hnodup : (db.nodes.map (fun n => n.id)).Nodup) :
    (deriveStatus none = ("stopped")) ∧
    (deriveStatus (some ("running")) = ("running")) ∧
    (deriveStatus (some ("exited")) = ("stopped")) ∧
    (deriveStatus (some ("dead")) = ("stopped")) ∧
    (deriveStatus (some ("created")) = ("creating")) ∧
    (deriveStatus (some ("restarting")) = ("creating")) ∧
    (∀ s, s ≠ ("running") → s ≠ ("exited") → s ≠ ("dead") → s ≠ ("created") →
      s ≠ ("restarting") → deriveStatus (some s) = ("stopped")) ∧
    (node.containerID ≠ ("") → ∀ sm, lookupHost states node.hostID = some sm →
      reconcileNodeStatus states node = deriveStatus (lookupState sm (("avax-") ++ node.name))) ∧
    (lookupHost states node.hostID = none → reconcileNodeStatus states node = node.status) ∧
    ((node.id, reconcileNodeStatus states node) ∈ (reconcile states db).2 ↔
      reconcileNodeStatus states node ≠ node.status) := by
  refine ⟨rfl, rfl, rfl, rfl, rfl, rfl, ?_, ?_, ?_, ?_⟩
  · intro s h1 h2 h3 h4 h5
    simp [deriveStatus, h1, h2, h3, h4, h5]
  · intro hcid sm hsm
    simp [reconcileNodeStatus, hcid, hsm]
  · intro hnone
    by_cases hcid : node.containerID = ("")
    · simp [reconcileNodeStatus, hcid]
    · simp [reconcileNodeStatus, hcid, hnone]
  · constructor
    · intro hin
      obtain ⟨a, ha, hfa⟩ := List.mem_filterMap.mp hin
      dsimp only at hfa
      split at hfa
      · rw [Option.some.injEq, Prod.mk.injEq] at hfa
        obtain ⟨hid, hs⟩ := hfa
        have ha' : a = node := List.inj_on_of_nodup_map hnodup ha hmem hid
        subst ha'
        rename_i hcond
        rw [bne_iff_ne] at hcond
        exact hcond
      · cases hfa
    · intro hne
      refine List.mem_filterMap.mpr ⟨node, hmem, ?_⟩
      have hb : (reconcileNodeStatus states node != node.status) = true := by
        simp [hne]
      dsimp only
      rw [if_pos hb]

/-- Observed container states used by the C6 witness: host 1 reports the
container `avax-n1` as `exited`. -/
def statesW : ContainerStates := [(1, [(("avax-n1"), ("exited"))])]

/-- Witness for C6 at a concrete input: the running node `nodeW`, whose
container is observed `exited` on host 1, derives `stopped`, and that
write appears in the reconcile write list since it differs. -/
theorem reconcile_derivation_witness :
    (reconcileNodeStatus statesW nodeW =
      deriveStatus (lookupState [(("avax-n1"), ("exited"))] (("avax-") ++ nodeW.name))) ∧
    ((nodeW.id, reconcileNodeStatus statesW nodeW) ∈ (reconcile statesW dbAV).2 ↔
      reconcileNodeStatus statesW nodeW ≠ nodeW.status) := by
  obtain ⟨_, _, _, _, _, _, _, h8, h9, h10⟩ :=
    reconcile_derivation statesW dbAV nodeW (by decide) (by decide)
  exact ⟨h8 (by decide) _ rfl, h10⟩

/-- The new status assigned by a reconcile run is a fixed point: running
the derivation again on the updated row yields the same status. -/
theorem reconcileNodeStatus_idem (states : ContainerStates) (n : Node) :
    reconcileNodeStatus states { n with status := reconcileNodeStatus states n } =
      reconcileNodeStatus states n := by
  by_cases hcid : n.containerID = ("")
  · simp [reconcileNodeStatus, hcid]
  · cases hl : lookupHost states n.hostID with
    | none => simp [reconcileNodeStatus, hcid, hl]
    | some sm => simp [reconcileNodeStatus, hcid, hl]

/-- C7: reconciliation is idempotent — with unchanged observed container
states, a second run issues no status writes and leaves the store exactly
as the first run left it; moreover a reconcile run never appends events. -/
theorem reconcile_idempotent (states : ContainerStates) (db : DB) :
    (reconcile states (reconcile states db).1).2 = [] ∧
    (reconcile states (reconcile states db).1).1 = (reconcile states db).1 ∧
    (∀ d : DB, (reconcile states d).1.events = d.events) := by
  refine ⟨?_, ?_, fun d => rfl⟩
  · show ((reconcile states db).1.nodes.filterMap _) = []
    rw [show (reconcile states db).1.nodes =
        db.nodes.map (fun n => { n with status := reconcileNodeStatus states n }) from rfl]
    rw [List.filterMap_map]
    rw [List.filterMap_eq_nil_iff]
    intro n hn
    simp only [Function.comp_apply]
    rw [reconcileNodeStatus_idem]
    simp
  · show (⟨_, _, _, _⟩ : DB) = (⟨_, _, _, _⟩ : DB)
    congr 1
    rw [show (reconcile states db).1.nodes =
        db.nodes.map (fun n => { n with status := reconcileNodeStatus states n }) from rfl]
    rw [List.map_map]
    refine List.map_congr_left ?_
    intro n hn
    simp only [Function.comp_apply]
    rw [reconcileNodeStatus_idem]

theorem createL1_eventSwallowed (db : DB) (newID : Nat) (req : CreateL1Request) :
    (CreateL1 false db newID req).1 = (CreateL1 true db newID req).1 ∧
    ((CreateL1 false db newID req).2).core = ((CreateL1 true db newID req).2).core := by
  unfold CreateL1
  by_cases h1 : req.name = ("")
  · simp [h1]
  · by_cases h2 : db.l1s.any (fun l => l.name == req.name) = true
    · simp [h1, h2]
    · simp [h1, h2, logEvent_core]

theorem addValidator_eventSwallowed (db : DB) (newID l1ID : Nat) (req : AddValidatorRequest) :
    (AddValidator false db newID l1ID req).res = (AddValidator true db newID l1ID req).res ∧
    (AddValidator false db newID l1ID req).db.core = (AddValidator true db newID l1ID req).db.core ∧
    (AddValidator false db newID l1ID req).reconfigureTriggered =
      (AddValidator true db newID l1ID req).reconfigureTriggered := by
  unfold AddValidator
  cases hl : db.l1s.find? (fun l => l.id == l1ID) with
  | none => exact ⟨rfl, rfl, rfl⟩
  | some l1 =>
    cases hn : db.nodes.find? (fun n => n.id == req.nodeID) with
    | none => exact ⟨rfl, rfl, rfl⟩
    | some node =>
      by_cases hd : db.validators.any (fun v => v.l1ID == l1ID && v.nodeID == req.nodeID) = true
      · simp [hd]
      · simp [hd, logEvent_core]

theorem removeValidator_eventSwallowed (db : DB) (l1ID nodeID : Nat) :
    (RemoveValidator false db l1ID nodeID).res = (RemoveValidator true db l1ID nodeID).res ∧
    (RemoveValidator false db l1ID nodeID).db.core = (RemoveValidator true db l1ID nodeID).db.core ∧
    (RemoveValidator false db l1ID nodeID).reconfigureTriggered =
      (RemoveValidator true db l1ID nodeID).reconfigureTriggered := by
  unfold RemoveValidator
  cases hl : db.l1s.find? (fun l => l.id == l1ID) with
  | none => exact ⟨rfl, rfl, rfl⟩
  | some l1 =>
    dsimp only
    by_cases hr : ((db.validators.filter (fun v => !(v.l1ID == l1ID && v.nodeID == nodeID))).length
        == db.validators.length) = true
    · rw [if_pos hr, if_pos hr]
      exact ⟨rfl, rfl, rfl⟩
    · rw [if_neg hr, if_neg hr]
      exact ⟨rfl, by rw [logEvent_core, logEvent_core], rfl⟩

theorem createNode_eventSwallowed (m : Manager) (db : DB) (newID : Nat)
    (req : CreateNodeRequest) :
    (CreateNode m false db newID req).1 = (CreateNode m true db newID req).1 ∧
    ((CreateNode m false db newID req).2).core = ((CreateNode m true db newID req).2).core := by
  unfold CreateNode
  by_cases h1 : req.name = ("")
  · simp [h1]
  · by_cases h2 : db.nodes.any (fun n => n.name == req.name) = true
    · simp [h1, h2]
    · by_cases h3 : m.hasClient (if req.hostID = 0 then m.localHostID else req.hostID) = true
      · by_cases h4 : db.nodes.any (fun n =>
            n.hostID == (if req.hostID = 0 then m.localHostID else req.hostID) &&
            n.stakingPort == (if req.stakingPort = 0 then 9651 else req.stakingPort) &&
            n.status != ("stopped") && n.status != ("failed")) = true
        · simp [h1, h2, h3, h4]
        · simp [h1, h2, h3, h4, logEvent_core]
      · simp [h1, h2, h3]

theorem provisionNode_eventSwallowed (m : Manager) (db : DB) (nodeID hostID : Nat)
    (req : CreateNodeRequest) (rt : RuntimeOutcome) :
    (provisionNode m false db nodeID hostID req rt).core =
      (provisionNode m true db nodeID hostID req rt).core := by
  by_cases h1 : (!m.hasClient hostID) = true
  · simp [provisionNode, h1]
  · cases hp : rt.pullErr with
    | some e => simp [provisionNode, provisionSetStatus, h1, hp, logEvent_core]
    | none =>
      cases hc : rt.createRes with
      | error e => simp [provisionNode, provisionSetStatus, h1, hp, hc, logEvent_core]
      | ok cid =>
        cases hs : rt.startErr with
        | some e => simp [provisionNode, provisionSetStatus, h1, hp, hc, hs, logEvent_core]
        | none => simp [provisionNode, provisionSetStatus, h1, hp, hc, hs, logEvent_core]

theorem deleteNode_eventSwallowed (m : Manager) (db : DB) (id : Nat) (rv : Bool)
    (re : Option String) :
    (DeleteNode m false db id rv re).res = (DeleteNode m true db id rv re).res ∧
    (DeleteNode m false db id rv re).db.core = (DeleteNode m true db id rv re).db.core ∧
    (DeleteNode m false db id rv re).removeCall = (DeleteNode m true db id rv re).removeCall := by
  unfold DeleteNode
  cases hf : db.nodes.find? (fun n => n.id == id) with
  | none => exact ⟨rfl, rfl, rfl⟩
  | some node =>
    by_cases h1 : (node.containerID != ("")) = true
    · by_cases h2 : (!m.hasClient node.hostID) = true
      · simp [h1, h2]
      · cases re with
        | none => simp [h1, h2, logEvent_core]
        | some e =>
          by_cases h3 : (!goContains e ("No such container")) = true
          · simp [h1, h2, h3]
          · simp [h1, h2, h3, logEvent_core]
    · simp [h1, logEvent_core]

theorem fetchAndStoreNodeID_core (i₁ i₂ : Bool) (d₁ d₂ : DB) (node : Node)
    (fetched : Option String) (h : d₁.core = d₂.core) :
    (fetchAndStoreNodeID i₁ d₁ node fetched).core =
      (fetchAndStoreNodeID i₂ d₂ node fetched).core := by
  have hn : d₁.nodes = d₂.nodes := congrArg (fun c => c.1) h
  have hl : d₁.l1s = d₂.l1s := congrArg (fun c => c.2.1) h
  have hv : d₁.validators = d₂.validators := congrArg (fun c => c.2.2) h
  cases fetched with
  | none => exact h
  | some s =>
    by_cases hs : s = ("")
    · simpa [fetchAndStoreNodeID, hs] using h
    · simp only [fetchAndStoreNodeID]
      rw [if_neg hs, if_neg hs]
      unfold DB.core
      simp only [logEvent_nodes, logEvent_l1s, logEvent_validators]
      rw [hn, hl, hv]

theorem pollNodeStep_eventSwallowed (m : Manager) (db : DB) (node : Node) (obs : HealthObs) :
    (pollNodeStep m false db node obs).core = (pollNodeStep m true db node obs).core := by
  simp only [pollNodeStep]
  by_cases h1 : (node.status != ("running") && node.status != ("unhealthy")) = true
  · rw [if_pos h1, if_pos h1]
  · rw [if_neg h1, if_neg h1]
    by_cases h2 : (node.containerID == ("")) = true
    · rw [if_pos h2, if_pos h2]
    · rw [if_neg h2, if_neg h2]
      have hdb : ∀ i : Bool,
          ((if (pollNodeNewStatus m node obs != node.status) = true then
              logEvent i (setNodeStatus db node.id (pollNodeNewStatus m node obs))
                ("node.health") node.name
                (("Status changed: ") ++ node.status ++ (" → ") ++ pollNodeNewStatus m node obs)
                none
            else db)).core =
          (if (pollNodeNewStatus m node obs != node.status) = true then
            (setNodeStatus db node.id (pollNodeNewStatus m node obs)).core
          else db.core) := by
        intro i
        by_cases h3 : (pollNodeNewStatus m node obs != node.status) = true
        · rw [if_pos h3, if_pos h3, logEvent_core]
        · rw [if_neg h3, if_neg h3]
      by_cases h4 : (obs.healthy && node.nodeID == ("")) = true
      · rw [if_pos h4, if_pos h4]
        exact fetchAndStoreNodeID_core _ _ _ _ _ _ (by rw [hdb, hdb])
      · rw [if_neg h4, if_neg h4]
        rw [hdb, hdb]

/-- C10 (implicit): a failure to append the audit event row is swallowed —
for every embedded public operation the returned result, every non-event
table, and every side-channel output (reconfigure trigger, container
remove call) are identical whether or not the event insert succeeds; only
the `events` table can differ. -/
theorem eventInsertFailure_harmless (m : Manager) (db : DB) :
    (∀ newID req, (CreateL1 false db newID req).1 = (CreateL1 true db newID req).1 ∧
      ((CreateL1 false db newID req).2).core = ((CreateL1 true db newID req).2).core) ∧
    (∀ newID l1ID req,
      (AddValidator false db newID l1ID req).res = (AddValidator true db newID l1ID req).res ∧
      (AddValidator false db newID l1ID req).db.core = (AddValidator true db newID l1ID req).db.core ∧
      (AddValidator false db newID l1ID req).reconfigureTriggered =
        (AddValidator true db newID l1ID req).reconfigureTriggered) ∧
    (∀ l1ID nodeID,
      (RemoveValidator false db l1ID nodeID).res = (RemoveValidator true db l1ID nodeID).res ∧
      (RemoveValidator false db l1ID nodeID).db.core = (RemoveValidator true db l1ID nodeID).db.core ∧
      (RemoveValidator false db l1ID nodeID).reconfigureTriggered =
        (RemoveValidator true db l1ID nodeID).reconfigureTriggered) ∧
    (∀ newID req, (CreateNode m false db newID req).1 = (CreateNode m true db newID req).1 ∧
      ((CreateNode m false db newID req).2).core = ((CreateNode m true db newID req).2).core) ∧
    (∀ nodeID hostID req rt, (provisionNode m false db nodeID hostID req rt).core =
      (provisionNode m true db nodeID hostID req rt).core) ∧
    (∀ id rv re, (DeleteNode m false db id rv re).res = (DeleteNode m true db id rv re).res ∧
      (DeleteNode m false db id rv re).db.core = (DeleteNode m true db id rv re).db.core ∧
      (DeleteNode m false db id rv re).removeCall = (DeleteNode m true db id rv re).removeCall) ∧
    (∀ node obs, (pollNodeStep m false db node obs).core = (pollNodeStep m true db node obs).core) := by
  refine ⟨?_, ?_, ?_, ?_, ?_, ?_, ?_⟩
  · intro newID req
    exact createL1_eventSwallowed db newID req
  · intro newID l1ID req
    exact addValidator_eventSwallowed db newID l1ID req
  · intro l1ID nodeID
    exact removeValidator_eventSwallowed db l1ID nodeID
  · intro newID req
    exact createNode_eventSwallowed m db newID req
  · intro nodeID hostID req rt
    exact provisionNode_eventSwallowed m db nodeID hostID req rt
  · intro id rv re
    exact deleteNode_eventSwallowed m db id rv re
  · intro node obs
    exact pollNodeStep_eventSwallowed m db node obs

end Avalauncher
